import Mathlib

/-!
Shallow embedding of the FlockaAPI card-exchange reconciliation engine.

The repository is a Cloudflare Workers backend (Hono + D1/SQLite).  This file
embeds the SQL tables as lists of rows, time (JS `Date.now()` and SQLite
`datetime`) as a single integer clock in milliseconds, and each HTTP handler
as a pure function from a request and a database state to a response and a
new database state.  Randomly generated identifiers (`crypto.randomUUID()`)
are passed in as explicit parameters.  SQLite constraint failures (primary
key, the UNIQUE(owner_user_id, collected_card_id) constraint on `exchanges`,
and foreign keys) are modelled by `Except DBError`, mirroring the JS
exceptions caught by the handlers' catch blocks.

Sources embedded here:
  * db/schema.sql and the newer schema revision (qr_exchange_logs table)
  * src/routes/exchanges.ts (older revision: POST /exchanges, PUT/DELETE
    /exchanges/:id, POST /exchanges/mutual, GET /exchanges/token-info,
    POST /exchanges/request, POST /exchanges/requests/:id/respond)
  * the newer revision of the exchanges router (POST /exchanges/qr/generate,
    POST /exchanges/qr, GET /exchanges/qr-logs, PUT /exchanges/:id)
  * the cards router (POST /cards/:id/generate-exchange-url,
    POST /cards/:id/generate-qr)
  * the QR codec utility (parseCardExchangeQRData).
-/

/-- Row of the `users` table (name is nullable in the newer schema). -/
structure UserRow where
  id : String
  name : Option String
deriving Repr, DecidableEq

/-- Row of the `cards` table (fields relevant to the exchange engine). -/
structure CardRow where
  id : String
  user_id : String
  card_name : String
deriving Repr, DecidableEq

/-- Row of the `exchanges` table: the Collection Ledger. -/
structure ExchangeRow where
  id : String
  owner_user_id : String
  collected_card_id : String
  memo : Option String
  location_name : Option String
  latitude : Option Int
  longitude : Option Int
  created_at : Int
deriving Repr, DecidableEq

/-- Row of the `qr_exchange_tokens` table. -/
structure QRTokenRow where
  token : String
  user_id : String
  card_id : String
  created_at : Int
  expires_at : Int
deriving Repr, DecidableEq

/-- Row of the `exchange_requests` table (proximity exchange). -/
structure RequestRow where
  id : String
  from_user_id : String
  to_user_id : String
  card_id : String
  message : Option String
  status : String
  created_at : Int
  expires_at : Int
deriving Repr, DecidableEq

/-- Row of the `qr_exchange_logs` table (notified stored as 0/1). -/
structure QRLogRow where
  id : String
  qr_owner_user_id : String
  scanner_user_id : String
  scanner_card_id : String
  qr_card_id : String
  memo : Option String
  location_name : Option String
  latitude : Option Int
  longitude : Option Int
  notified : Bool
  created_at : Int
deriving Repr, DecidableEq

/-- The D1 database state: one list per table. -/
structure DBState where
  users : List UserRow
  cards : List CardRow
  exchanges : List ExchangeRow
  qrTokens : List QRTokenRow
  requests : List RequestRow
  qrLogs : List QRLogRow
deriving Repr, DecidableEq

/-- Abstraction of the SQLite error classes the handlers' catch blocks
distinguish by substring-matching on the error message
("UNIQUE constraint failed", "FOREIGN KEY constraint failed", other). -/
inductive DBError where
  | uniqueConstraint
  | foreignKey
  | otherError (msg : String)
deriving Repr, DecidableEq

/-- Uniform shape of the JSON responses: `{success, error?, errorType?}`
plus the HTTP status.  `ok` is a `success: true` response, `err` a plain
`success: false` one, and `errTyped` the detailed error objects built by the
newer handlers' catch blocks (which add an `errorType` field). -/
inductive HResp where
  | ok (status : Nat)
  | err (status : Nat) (msg : String)
  | errTyped (status : Nat) (msg : String) (errorType : String)
deriving Repr, DecidableEq

/-- Whether a response reports success to the caller. -/
def HResp.success : HResp → Bool
  | .ok _ => true
  | .err _ _ => false
  | .errTyped _ _ _ => false

/-- JS `x || d` for an optional string (`undefined`, `null` and `""` are
falsy). -/
def jsOr (m : Option String) (d : String) : String :=
  match m with
  | some s => if s == "" then d else s
  | none => d

/-- JS `x || null` for an optional string. -/
def jsOrNullS (m : Option String) : Option String :=
  match m with
  | some s => if s == "" then none else some s
  | none => none

/-- JS `x || null` for an optional number (note that 0 is falsy in JS). -/
def jsOrNullI (m : Option Int) : Option Int :=
  match m with
  | some i => if i == 0 then none else some i
  | none => none

/-- JS truthiness of an optional string. -/
def optTruthy : Option String → Bool
  | none => false
  | some s => s != ""

/-- INSERT INTO exchanges: enforces the `id` primary key, the
UNIQUE(owner_user_id, collected_card_id) constraint, and the foreign keys
on owner_user_id and collected_card_id. -/
def insertExchange (st : DBState) (row : ExchangeRow) : Except DBError DBState :=
  if st.exchanges.any (fun e => e.id == row.id) then
    .error .uniqueConstraint
  else if st.exchanges.any (fun e =>
      e.owner_user_id == row.owner_user_id &&
      e.collected_card_id == row.collected_card_id) then
    .error .uniqueConstraint
  else if !(st.users.any (fun u => u.id == row.owner_user_id)) then
    .error .foreignKey
  else if !(st.cards.any (fun c => c.id == row.collected_card_id)) then
    .error .foreignKey
  else
    .ok { st with exchanges := st.exchanges ++ [row] }

/-- INSERT INTO qr_exchange_tokens: `token` primary key plus foreign keys. -/
def insertQRToken (st : DBState) (row : QRTokenRow) : Except DBError DBState :=
  if st.qrTokens.any (fun r => r.token == row.token) then
    .error .uniqueConstraint
  else if !(st.users.any (fun u => u.id == row.user_id)) then
    .error .foreignKey
  else if !(st.cards.any (fun c => c.id == row.card_id)) then
    .error .foreignKey
  else
    .ok { st with qrTokens := st.qrTokens ++ [row] }

/-- INSERT INTO qr_exchange_logs: `id` primary key plus foreign keys. -/
def insertQRLog (st : DBState) (row : QRLogRow) : Except DBError DBState :=
  if st.qrLogs.any (fun l => l.id == row.id) then
    .error .uniqueConstraint
  else if !(st.users.any (fun u => u.id == row.qr_owner_user_id)) then
    .error .foreignKey
  else if !(st.users.any (fun u => u.id == row.scanner_user_id)) then
    .error .foreignKey
  else if !(st.cards.any (fun c => c.id == row.scanner_card_id)) then
    .error .foreignKey
  else if !(st.cards.any (fun c => c.id == row.qr_card_id)) then
    .error .foreignKey
  else
    .ok { st with qrLogs := st.qrLogs ++ [row] }

/-- INSERT INTO exchange_requests: `id` primary key plus foreign keys. -/
def insertRequest (st : DBState) (row : RequestRow) : Except DBError DBState :=
  if st.requests.any (fun r => r.id == row.id) then
    .error .uniqueConstraint
  else if !(st.users.any (fun u => u.id == row.from_user_id)) then
    .error .foreignKey
  else if !(st.users.any (fun u => u.id == row.to_user_id)) then
    .error .foreignKey
  else if !(st.cards.any (fun c => c.id == row.card_id)) then
    .error .foreignKey
  else
    .ok { st with requests := st.requests ++ [row] }

/-! ## URL-token (share URL) credential and the mutual exchange

The share-URL credential is a base64-encoded JSON object built by
POST /cards/:id/generate-exchange-url.  `JSON.parse(atob(token))` either
yields such an object or throws; an undecodable token is modelled as
`none`. -/

/-- Decoded payload of a share-URL exchange token. -/
structure URLTokenPayload where
  cardId : String
  userId : String
  timestamp : Int
  expires : Int
deriving Repr, DecidableEq

/-- POST /cards/:id/generate-exchange-url, token construction: the payload
embedded in the URL (valid for 24 hours from issue time). -/
def generateExchangeUrlPayload (cardId userId : String) (now : Int) : URLTokenPayload :=
  { cardId := cardId
    userId := userId
    timestamp := now
    expires := now + 24 * 60 * 60 * 1000 }

/-- POST /exchanges (older revision): single-direction "add to my
collection".  `collected_card_id` is the raw request field (empty string is
falsy, as in JS). -/
def postExchanges (now : Int) (st : DBState) (callerId : String)
    (collected_card_id : String) (memo location_name : Option String)
    (latitude longitude : Option Int) (exchangeId : String) : HResp × DBState :=
  if collected_card_id == "" then
    (.err 400 "Card ID is required", st)
  else
    match st.cards.find? (fun c => c.id == collected_card_id) with
    | none => (.err 404 "Card not found", st)
    | some targetCard =>
      if targetCard.user_id == callerId then
        (.err 400 "You cannot collect your own card", st)
      else
        match st.exchanges.find? (fun e =>
            e.owner_user_id == callerId &&
            e.collected_card_id == collected_card_id) with
        | some _ => (.err 409 "You have already collected this card", st)
        | none =>
          match insertExchange st
              { id := exchangeId
                owner_user_id := callerId
                collected_card_id := collected_card_id
                memo := jsOrNullS memo
                location_name := jsOrNullS location_name
                latitude := jsOrNullI latitude
                longitude := jsOrNullI longitude
                created_at := now } with
          | .error _ => (.err 500 "Failed to collect card", st)
          | .ok st1 => (.ok 201, st1)

/-- POST /exchanges/mutual: bidirectional exchange via URL token.
`tokenPresent` is JS truthiness of the raw `exchangeToken` string;
`decoded` is the result of `JSON.parse(atob(exchangeToken))` (`none` when
that throws). -/
def postExchangesMutual (now : Int) (st : DBState) (callerId : String)
    (tokenPresent : Bool) (decoded : Option URLTokenPayload) (myCardId : String)
    (memo location_name : Option String) (latitude longitude : Option Int)
    (exchangeId1 exchangeId2 : String) : HResp × DBState :=
  if !tokenPresent || myCardId == "" then
    (.err 400 "Exchange token and your card ID are required", st)
  else
    match decoded with
    | none => (.err 400 "Invalid exchange token", st)
    | some tokenData =>
      if now > tokenData.expires then
        (.err 400 "Exchange token has expired", st)
      else
        match st.cards.find? (fun c => c.id == tokenData.cardId) with
        | none => (.err 404 "Target card not found", st)
        | some otherCard =>
          match st.cards.find? (fun c =>
              c.id == myCardId && c.user_id == callerId) with
          | none => (.err 404 "Your card not found or not owned by you", st)
          | some myCard =>
            if otherCard.user_id == callerId then
              (.err 400 "Cannot exchange cards with yourself", st)
            else
              let existingExchange1 := st.exchanges.find? (fun e =>
                e.owner_user_id == callerId && e.collected_card_id == otherCard.id)
              let existingExchange2 := st.exchanges.find? (fun e =>
                e.owner_user_id == otherCard.user_id && e.collected_card_id == myCard.id)
              if existingExchange1.isSome || existingExchange2.isSome then
                (.err 409 "Cards have already been exchanged between these users", st)
              else
                match insertExchange st
                    { id := exchangeId1
                      owner_user_id := callerId
                      collected_card_id := otherCard.id
                      memo := some (jsOr memo ("URL交換で " ++ otherCard.card_name ++ " を取得"))
                      location_name := location_name
                      latitude := latitude
                      longitude := longitude
                      created_at := now } with
                | .error _ => (.err 500 "Failed to exchange cards", st)
                | .ok st1 =>
                  match insertExchange st1
                      { id := exchangeId2
                        owner_user_id := otherCard.user_id
                        collected_card_id := myCard.id
                        memo := some ("URL交換で " ++ myCard.card_name ++ " を取得")
                        location_name := location_name
                        latitude := latitude
                        longitude := longitude
                        created_at := now } with
                  | .error _ => (.err 500 "Failed to exchange cards", st1)
                  | .ok st2 => (.ok 200, st2)

/-- GET /exchanges/token-info: read-only inspection of a URL token.
The card query joins `users`, so a card whose owner row is missing is
filtered out by the join and reported as not found. -/
def getTokenInfo (now : Int) (st : DBState)
    (tokenPresent : Bool) (decoded : Option URLTokenPayload) : HResp :=
  if !tokenPresent then
    .err 400 "Token is required"
  else
    match decoded with
    | none => .err 400 "Invalid token"
    | some tokenData =>
      if now > tokenData.expires then
        .err 400 "Token has expired"
      else
        match st.cards.find? (fun c => c.id == tokenData.cardId) with
        | none => .err 404 "Card not found"
        | some card =>
          match st.users.find? (fun u => u.id == card.user_id) with
          | none => .err 404 "Card not found"
          | some _ => .ok 200

/-! ## QR credential codec and the instant-bidirectional QR exchange -/

/-- JSON object scanned from a QR code, as far as the parsers inspect it:
`{type, cardId, userId, token, timestamp}`.  String fields use `""` for a
missing/empty (falsy) value; `ty` stands for the JSON field named `type`. -/
structure QRPayloadJson where
  ty : String
  cardId : String
  userId : String
  token : String
  timestamp : Int
deriving Repr, DecidableEq

/-- Validated QR payload returned by the parsers. -/
structure ParsedQR where
  cardId : String
  userId : String
  token : String
  timestamp : Int
deriving Repr, DecidableEq

/-- parseCardExchangeQRData from the QR utility module: checks the shape and
rejects a payload older than 30 minutes
(`Date.now() - data.timestamp > 30 * 60 * 1000`). -/
def parseCardExchangeQRData (now : Int) (data : QRPayloadJson) : Option ParsedQR :=
  if data.ty != "card_exchange" || data.cardId == "" || data.userId == "" || data.token == "" then
    none
  else if now - data.timestamp > 30 * 60 * 1000 then
    none
  else
    some { cardId := data.cardId
           userId := data.userId
           token := data.token
           timestamp := data.timestamp }

/-- The newer exchanges router's local copy of parseCardExchangeQRData: also
requires a truthy timestamp and compares `(now - timestamp) / 60000 > 30`,
which over the reals is the same bound as `now - timestamp > 1800000`. -/
def parseCardExchangeQRDataV2 (now : Int) (data : QRPayloadJson) : Option ParsedQR :=
  if data.ty == "card_exchange" && data.cardId != "" && data.userId != "" &&
     data.token != "" && data.timestamp != 0 then
    if now - data.timestamp > 30 * 60 * 1000 then
      none
    else
      some { cardId := data.cardId
             userId := data.userId
             token := data.token
             timestamp := data.timestamp }
  else
    none

/-- The `qrData` request field of POST /exchanges/qr: either a plain opaque
token string (a string not starting with a brace, e.g. from BLE) or a JSON
text; `jsonPayload none` stands for JSON that does not parse. -/
inductive QRInputData where
  | rawToken (token : String)
  | jsonPayload (payload : Option QRPayloadJson)
deriving Repr, DecidableEq

/-- Catch block of POST /exchanges/qr in the newer router: classifies the
thrown SQL error by message substring into an `errorType` tag on a 500
response. -/
def qrExchangeCatchResp : DBError → HResp
  | .uniqueConstraint => .errTyped 500 "Failed to complete QR exchange" "duplicate_exchange_error"
  | .foreignKey => .errTyped 500 "Failed to complete QR exchange" "foreign_key_error"
  | .otherError _ => .errTyped 500 "Failed to complete QR exchange" "general_database_error"

/-- Catch block of POST /exchanges/qr/generate in the newer router. -/
def qrGenerateCatchResp : DBError → HResp
  | .uniqueConstraint => .errTyped 500 "Failed to generate QR token" "duplicate_token_error"
  | .foreignKey => .errTyped 500 "Failed to generate QR token" "foreign_key_error"
  | .otherError _ => .errTyped 500 "Failed to generate QR token" "general_database_error"

/-- POST /exchanges/qr (newer router): instant bidirectional exchange from a
scanned QR credential.  Writes each missing ledger direction, always appends
a qr_exchange_logs entry, and never touches the qr_exchange_tokens table
beyond the validity SELECT. -/
def postExchangesQRv2 (now : Int) (st : DBState) (callerId : String)
    (qrData : Option QRInputData) (myCardId : String)
    (memo location_name : Option String) (latitude longitude : Option Int)
    (exchangeId1 exchangeId2 logId : String) : HResp × DBState :=
  if qrData.isNone || myCardId == "" then
    (.err 400 "QR data and your card ID are required", st)
  else
    let extracted : Except HResp (String × Option String) :=
      match qrData with
      | none => .error (.err 400 "QR data and your card ID are required")
      | some (.rawToken t) =>
        if t == "" then .error (.err 400 "QR data and your card ID are required")
        else .ok (t, none)
      | some (.jsonPayload p) =>
        match p with
        | none => .error (.err 400 "Invalid or expired QR code format")
        | some payload =>
          match parseCardExchangeQRDataV2 now payload with
          | none => .error (.err 400 "Invalid or expired QR code format")
          | some qrContent => .ok (qrContent.token, some qrContent.cardId)
    match extracted with
    | .error r => (r, st)
    | .ok (token, cardIdFromQR) =>
      match st.qrTokens.find? (fun r => r.token == token && r.expires_at > now) with
      | none => (.err 400 "QR code token is invalid or expired", st)
      | some qrTok =>
        let cardId : String :=
          match cardIdFromQR with
          | some cid => cid
          | none => qrTok.card_id
        if cardId == "" then
          (.err 400 "Card ID could not be determined from token", st)
        else
          match st.cards.find? (fun c => c.id == cardId) with
          | none => (.err 404 "Target card not found", st)
          | some otherCard =>
            match st.cards.find? (fun c =>
                c.id == myCardId && c.user_id == callerId) with
            | none => (.err 404 "Your card not found or not owned by you", st)
            | some myCard =>
              if otherCard.user_id == callerId then
                (.err 400 "Cannot exchange cards with yourself", st)
              else
                let existingMyCollection := st.exchanges.find? (fun e =>
                  e.owner_user_id == callerId && e.collected_card_id == otherCard.id)
                let existingOtherCollection := st.exchanges.find? (fun e =>
                  e.owner_user_id == otherCard.user_id && e.collected_card_id == myCard.id)
                let step1 : Except DBError DBState :=
                  if existingMyCollection.isNone then
                    insertExchange st
                      { id := exchangeId1
                        owner_user_id := callerId
                        collected_card_id := otherCard.id
                        memo := some (jsOr memo ("QR交換: " ++ otherCard.card_name))
                        location_name := jsOrNullS location_name
                        latitude := jsOrNullI latitude
                        longitude := jsOrNullI longitude
                        created_at := now }
                  else .ok st
                match step1 with
                | .error e => (qrExchangeCatchResp e, st)
                | .ok st1 =>
                  let step2 : Except DBError DBState :=
                    if existingOtherCollection.isNone then
                      insertExchange st1
                        { id := exchangeId2
                          owner_user_id := otherCard.user_id
                          collected_card_id := myCard.id
                          memo := some ("QR交換: " ++ callerId ++ "から")
                          location_name := jsOrNullS location_name
                          latitude := jsOrNullI latitude
                          longitude := jsOrNullI longitude
                          created_at := now }
                    else .ok st1
                  match step2 with
                  | .error e => (qrExchangeCatchResp e, st1)
                  | .ok st2 =>
                    match insertQRLog st2
                        { id := logId
                          qr_owner_user_id := otherCard.user_id
                          scanner_user_id := callerId
                          scanner_card_id := myCard.id
                          qr_card_id := otherCard.id
                          memo := some (jsOr memo (myCard.card_name ++ " とのQR交換"))
                          location_name := jsOrNullS location_name
                          latitude := jsOrNullI latitude
                          longitude := jsOrNullI longitude
                          notified := false
                          created_at := now } with
                    | .error e => (qrExchangeCatchResp e, st2)
                    | .ok st3 => (.ok 200, st3)

/-- POST /exchanges/qr/generate (newer router): deletes any existing token
rows for (caller, card), then inserts a fresh token; expires_at comes from
the schema default of now + 30 minutes. -/
def qrGenerateV2 (now : Int) (st : DBState) (callerId cardId token : String) :
    HResp × DBState :=
  if cardId == "" then
    (.err 400 "Card ID is required", st)
  else
    match st.cards.find? (fun c => c.id == cardId && c.user_id == callerId) with
    | none => (.err 404 "Card not found or not owned by you", st)
    | some _ =>
      let st1 := { st with qrTokens := st.qrTokens.filter (fun r =>
        !(r.user_id == callerId && r.card_id == cardId)) }
      match insertQRToken st1
          { token := token
            user_id := callerId
            card_id := cardId
            created_at := now
            expires_at := now + 30 * 60 * 1000 } with
      | .error e => (qrGenerateCatchResp e, st1)
      | .ok st2 => (.ok 200, st2)

/-- POST /cards/:id/generate-qr (cards router): inserts a fresh token with an
explicit expires_at of now + 30 minutes. It performs no deletion of prior
tokens for the same (user, card) pair. -/
def generateQRv1 (now : Int) (st : DBState) (callerId cardId token : String) :
    HResp × DBState :=
  match st.cards.find? (fun c => c.id == cardId && c.user_id == callerId) with
  | none => (.err 404 "Card not found or not owned by you", st)
  | some _ =>
    match insertQRToken st
        { token := token
          user_id := callerId
          card_id := cardId
          created_at := now
          expires_at := now + 30 * 60 * 1000 } with
    | .error _ => (.err 500 "Failed to generate QR code", st)
    | .ok st1 => (.ok 200, st1)

/-! ## QR exchange-log feed -/

/-- One row of the GET /exchanges/qr-logs response, as far as the feed
semantics are concerned.  The SQL query inner-joins the scanner user and both
cards, so rows whose referenced user or card is missing are dropped. -/
structure QRLogView where
  id : String
  scanner_name : Option String
  scanner_card_name : String
  qr_card_name : String
  notified : Bool
deriving Repr, DecidableEq

/-- The joined SELECT of GET /exchanges/qr-logs over an explicit row list
(the row order of the table stands in for ORDER BY created_at DESC, which
the claims do not depend on). -/
def qrLogsQueryAux (st : DBState) (uid : String) (rows : List QRLogRow) :
    List QRLogView :=
  rows.filterMap (fun l =>
    if l.qr_owner_user_id == uid then
      match st.users.find? (fun u => u.id == l.scanner_user_id),
            st.cards.find? (fun c => c.id == l.scanner_card_id),
            st.cards.find? (fun c => c.id == l.qr_card_id) with
      | some u, some sc, some qc =>
        some { id := l.id
               scanner_name := u.name
               scanner_card_name := sc.card_name
               qr_card_name := qc.card_name
               notified := l.notified }
      | _, _, _ => none
    else none)

/-- The joined SELECT of GET /exchanges/qr-logs. -/
def qrLogsQuery (st : DBState) (uid : String) : List QRLogView :=
  qrLogsQueryAux st uid st.qrLogs

/-- Response data of GET /exchanges/qr-logs: `{logs, total, newLogs}`. -/
structure QRLogsResult where
  logs : List QRLogView
  total : Nat
  newLogs : Nat
deriving Repr, DecidableEq

/-- GET /exchanges/qr-logs: fetches the caller's feed, then marks each
returned unnotified row as notified (UPDATE ... WHERE id = ? per row). -/
def getQRLogs (st : DBState) (uid : String) : QRLogsResult × DBState :=
  let logs := qrLogsQuery st uid
  let unnotifiedLogs := logs.filter (fun v => !v.notified)
  let logIds := unnotifiedLogs.map (fun v => v.id)
  let st' :=
    if unnotifiedLogs.length > 0 then
      { st with qrLogs := st.qrLogs.map (fun l =>
          if logIds.contains l.id then { l with notified := true } else l) }
    else st
  ({ logs := logs, total := logs.length, newLogs := unnotifiedLogs.length }, st')

/-! ## Ledger entry update and delete -/

/-- PUT /exchanges/:id (newer router): body fields defaulted with `??`
(memo ?? '', location_name ?? null, latitude/longitude ?? null), then a
single UPDATE of exactly those four columns on the addressed row. -/
def putExchangeV2 (st : DBState) (callerId exchangeId : String)
    (memo location_name : Option String) (latitude longitude : Option Int) :
    HResp × DBState :=
  let memoV := memo.getD ""
  match st.exchanges.find? (fun e => e.id == exchangeId) with
  | none => (.err 404 "Exchange record not found", st)
  | some existingExchange =>
    if existingExchange.owner_user_id != callerId then
      (.err 403 "Not authorized to update this exchange", st)
    else
      (.ok 200, { st with exchanges := st.exchanges.map (fun r =>
        if r.id == exchangeId then
          { r with memo := some memoV
                   location_name := location_name
                   latitude := latitude
                   longitude := longitude }
        else r) })

/-- PUT /exchanges/:id (older router): builds the UPDATE dynamically from the
fields present in the body (`undefined` means absent, modelled by the outer
Option; the inner Option is the JSON null/value).  latitude and longitude are
only updated when both are present; an empty update list is a 400. -/
def putExchangeV1 (st : DBState) (callerId exchangeId : String)
    (memo location_name : Option (Option String))
    (latitude longitude : Option (Option Int)) : HResp × DBState :=
  match st.exchanges.find? (fun e => e.id == exchangeId) with
  | none => (.err 404 "Exchange record not found", st)
  | some existingExchange =>
    if existingExchange.owner_user_id != callerId then
      (.err 403 "You are not authorized to update this exchange", st)
    else
      let bothCoords := latitude.isSome && longitude.isSome
      if !(memo.isSome || location_name.isSome || bothCoords) then
        (.err 400 "No fields to update", st)
      else
        (.ok 200, { st with exchanges := st.exchanges.map (fun r =>
          if r.id == exchangeId then
            { r with memo := memo.getD r.memo
                     location_name := location_name.getD r.location_name
                     latitude := if bothCoords then latitude.getD r.latitude else r.latitude
                     longitude := if bothCoords then longitude.getD r.longitude else r.longitude }
          else r) })

/-- DELETE /exchanges/:id (identical owner check in both router revisions). -/
def deleteExchange (st : DBState) (callerId exchangeId : String) :
    HResp × DBState :=
  match st.exchanges.find? (fun e => e.id == exchangeId) with
  | none => (.err 404 "Exchange record not found", st)
  | some existingExchange =>
    if existingExchange.owner_user_id != callerId then
      (.err 403 "Not authorized to delete this exchange", st)
    else
      (.ok 200, { st with exchanges := st.exchanges.filter (fun r =>
        !(r.id == exchangeId)) })

/-! ## Proximity exchange requests -/

/-- POST /exchanges/request: creates a pending exchange request with a
30-minute expiry; rejects a request addressed to the caller themselves. -/
def sendExchangeRequest (now : Int) (st : DBState)
    (callerId targetUserId cardId : String) (message : Option String)
    (requestId : String) : HResp × DBState :=
  if targetUserId == "" || cardId == "" then
    (.err 400 "Target user ID and card ID are required", st)
  else if targetUserId == callerId then
    (.err 400 "Cannot send exchange request to yourself", st)
  else
    match st.cards.find? (fun c => c.id == cardId && c.user_id == callerId) with
    | none => (.err 404 "Card not found or not owned by you", st)
    | some _ =>
      match st.users.find? (fun u => u.id == targetUserId) with
      | none => (.err 404 "Target user not found", st)
      | some _ =>
        match st.requests.find? (fun r =>
            r.from_user_id == callerId && r.to_user_id == targetUserId &&
            r.status == "pending" && r.expires_at > now) with
        | some _ => (.err 409 "You already have a pending exchange request with this user", st)
        | none =>
          match insertRequest st
              { id := requestId
                from_user_id := callerId
                to_user_id := targetUserId
                card_id := cardId
                message := message
                status := "pending"
                created_at := now
                expires_at := now + 30 * 60 * 1000 } with
          | .error _ => (.err 500 "Failed to send exchange request", st)
          | .ok st1 => (.ok 200, st1)

/-- POST /exchanges/requests/:id/respond: reject is a pure status update;
accept resolves both cards and then performs a blind bidirectional insert
followed by the status update to accepted. -/
def respondToRequest (now : Int) (st : DBState) (callerId requestId action : String)
    (myCardId : Option String) (memo location_name : Option String)
    (latitude longitude : Option Int) (exchangeId1 exchangeId2 : String) :
    HResp × DBState :=
  if !(action == "accept" || action == "reject") then
    (.err 400 "Action must be either accept or reject", st)
  else if action == "accept" && !(optTruthy myCardId) then
    (.err 400 "Your card ID is required when accepting", st)
  else
    match st.requests.find? (fun r =>
        r.id == requestId && r.to_user_id == callerId &&
        r.status == "pending" && r.expires_at > now) with
    | none => (.err 404 "Exchange request not found or expired", st)
    | some request =>
      if action == "reject" then
        (.ok 200, { st with requests := st.requests.map (fun r =>
          if r.id == requestId then { r with status := "rejected" } else r) })
      else
        match st.cards.find? (fun c =>
            c.id == (myCardId.getD "") && c.user_id == callerId) with
        | none => (.err 404 "Your card not found or not owned by you", st)
        | some myCard =>
          match st.cards.find? (fun c => c.id == request.card_id) with
          | none => (.err 404 "Requested card not found", st)
          | some otherCard =>
            match insertExchange st
                { id := exchangeId1
                  owner_user_id := callerId
                  collected_card_id := otherCard.id
                  memo := some (jsOr memo ("近距離交換で " ++ otherCard.card_name ++ " を取得"))
                  location_name := location_name
                  latitude := latitude
                  longitude := longitude
                  created_at := now } with
            | .error _ => (.err 500 "Failed to respond to exchange request", st)
            | .ok st1 =>
              match insertExchange st1
                  { id := exchangeId2
                    owner_user_id := otherCard.user_id
                    collected_card_id := myCard.id
                    memo := some ("近距離交換で " ++ myCard.card_name ++ " を取得")
                    location_name := location_name
                    latitude := latitude
                    longitude := longitude
                    created_at := now } with
              | .error _ => (.err 500 "Failed to respond to exchange request", st1)
              | .ok st2 =>
                (.ok 200, { st2 with requests := st2.requests.map (fun r =>
                  if r.id == requestId then { r with status := "accepted" } else r) })

/-! ## Concrete database states used to evaluate the handlers -/

/-- Two users, one card each. -/
def stBase : DBState :=
  { users := [⟨"u1", some "Alice"⟩, ⟨"u2", some "Bob"⟩]
    cards := [⟨"c1", "u1", "Alice Card"⟩, ⟨"c2", "u2", "Bob Card"⟩]
    exchanges := []
    qrTokens := []
    requests := []
    qrLogs := [] }

/-- stBase with a half-finished bidirectional exchange: u1 already collected
u2's card c2, but u2 has not collected c1. -/
def stHalf : DBState :=
  { stBase with
    exchanges := [⟨"e0", "u1", "c2", none, none, none, none, 0⟩] }

/-- stHalf plus a pending proximity request from u2 to u1 offering card c2
(u1 already holds a ledger entry for c2). -/
def stDupRequest : DBState :=
  { stHalf with
    requests := [⟨"r1", "u2", "u1", "c2", none, "pending", 0, 100⟩] }

/-- A state containing a pending proximity request whose target card is owned
by the request's recipient: user u1 owns both cards and the request r1 is
addressed to u1 with u1's own card c1. -/
def stSelfRequest : DBState :=
  { users := [⟨"u1", some "Alice"⟩]
    cards := [⟨"c1", "u1", "Alice Card"⟩, ⟨"cm", "u1", "Alice Second Card"⟩]
    exchanges := []
    qrTokens := []
    requests := [⟨"r1", "u1", "u1", "c1", none, "pending", 0, 100⟩]
    qrLogs := [] }

/-- stBase plus a live QR token for (u1, c1), and u2 already holding the
u2 -> c1 ledger direction (the other direction is missing). -/
def stQRHalf : DBState :=
  { stBase with
    qrTokens := [⟨"t1", "u1", "c1", 0, 100⟩]
    exchanges := [⟨"e0", "u2", "c1", none, none, none, none, 0⟩] }

/-- stBase plus a live QR token for (u1, c1) with no ledger entries. -/
def stQRToken : DBState :=
  { stBase with qrTokens := [⟨"t1", "u1", "c1", 0, 100⟩] }

/-- stBase plus one unnotified QR exchange log addressed to u1. -/
def stLogs : DBState :=
  { stBase with
    qrLogs := [⟨"l1", "u1", "u2", "c2", "c1", none, none, none, none, false, 0⟩] }

/-- Projection of a ledger row to the fields that PUT /exchanges/:id is never
supposed to touch. -/
def exKey (e : ExchangeRow) : String × String × String × Int :=
  (e.id, e.owner_user_id, e.collected_card_id, e.created_at)

/-! ## Theorems -/

/-- C7: the single-direction "add to my collection" endpoint rejects a
duplicate outright: when a ledger entry (owner = caller, collected = card)
already exists, POST /exchanges leaves the database unchanged, and (when the
target card exists and is not the caller's own) responds with the
already-collected 409 error. -/
theorem single_add_rejects_duplicate_c7
    (now : Int) (st : DBState) (callerId cid : String)
    (memo loc : Option String) (lat lng : Option Int) (eid : String)
    (ex : ExchangeRow)
    (hex : st.exchanges.find? (fun e =>
      e.owner_user_id == callerId && e.collected_card_id == cid) = some ex) :
    (postExchanges now st callerId cid memo loc lat lng eid).2 = st ∧
    (∀ tc : CardRow, cid ≠ "" →
      st.cards.find? (fun c => c.id == cid) = some tc →
      (tc.user_id == callerId) = false →
      (postExchanges now st callerId cid memo loc lat lng eid).1
        = .err 409 "You have already collected this card") := by
  constructor
  · unfold postExchanges
    split
    · rfl
    · split
      · rfl
      · split
        · rfl
        · split
          · rfl
          · simp_all
  · intro tc hne hcard howner
    unfold postExchanges
    simp [hne, hcard, howner, hex]

/-- Witness for C7 at a concrete state: u1 already collected c2, so a second
single-direction collect of c2 is a 409 and leaves the ledger unchanged. -/
theorem single_add_rejects_duplicate_c7_witness :
    (postExchanges 0 stHalf "u1" "c2" none none none none "x1").2 = stHalf ∧
    (postExchanges 0 stHalf "u1" "c2" none none none none "x1").1
      = .err 409 "You have already collected this card" := by
  have h := single_add_rejects_duplicate_c7 0 stHalf "u1" "c2" none none none none "x1"
    ⟨"e0", "u1", "c2", none, none, none, none, 0⟩ (by decide)
  exact ⟨h.1, h.2 ⟨"c2", "u2", "Bob Card"⟩ (by decide) (by decide) (by decide)⟩

/-- C9: a Collection Ledger entry is mutated or deleted only by its owner:
both revisions of PUT /exchanges/:id and DELETE /exchanges/:id return a 403
and leave the database unchanged when the caller is not the record's owner,
and the PUT handlers only ever rewrite the memo/location columns (id, owner,
collected card and creation time are preserved for every row). -/
theorem ledger_owner_only_mutation_c9 :
    (∀ (st : DBState) (callerId exId : String) (memo loc : Option String)
       (lat lng : Option Int) (e : ExchangeRow),
      st.exchanges.find? (fun e => e.id == exId) = some e →
      (e.owner_user_id != callerId) = true →
      putExchangeV2 st callerId exId memo loc lat lng
        = (.err 403 "Not authorized to update this exchange", st)) ∧
    (∀ (st : DBState) (callerId exId : String)
       (memo loc : Option (Option String)) (lat lng : Option (Option Int))
       (e : ExchangeRow),
      st.exchanges.find? (fun e => e.id == exId) = some e →
      (e.owner_user_id != callerId) = true →
      putExchangeV1 st callerId exId memo loc lat lng
        = (.err 403 "You are not authorized to update this exchange", st)) ∧
    (∀ (st : DBState) (callerId exId : String) (e : ExchangeRow),
      st.exchanges.find? (fun e => e.id == exId) = some e →
      (e.owner_user_id != callerId) = true →
      deleteExchange st callerId exId
        = (.err 403 "Not authorized to delete this exchange", st)) ∧
    (∀ (st : DBState) (callerId exId : String) (memo loc : Option String)
       (lat lng : Option Int),
      ((putExchangeV2 st callerId exId memo loc lat lng).2.exchanges.map exKey)
        = st.exchanges.map exKey) ∧
    (∀ (st : DBState) (callerId exId : String)
       (memo loc : Option (Option String)) (lat lng : Option (Option Int)),
      ((putExchangeV1 st callerId exId memo loc lat lng).2.exchanges.map exKey)
        = st.exchanges.map exKey) := by
  refine ⟨?_, ?_, ?_, ?_, ?_⟩
  · intro st callerId exId memo loc lat lng e hfind hown
    unfold putExchangeV2
    simp [hfind, hown]
  · intro st callerId exId memo loc lat lng e hfind hown
    unfold putExchangeV1
    simp [hfind, hown]
  · intro st callerId exId e hfind hown
    unfold deleteExchange
    simp [hfind, hown]
  · intro st callerId exId memo loc lat lng
    unfold putExchangeV2
    split
    · rfl
    · split
      · rfl
      · simp only [List.map_map]
        apply List.map_congr_left
        intro a _
        simp only [Function.comp_apply]
        split <;> rfl
  · intro st callerId exId memo loc lat lng
    unfold putExchangeV1
    split
    · rfl
    · split
      · rfl
      · dsimp only
        split
        · rfl
        · simp only [List.map_map]
          apply List.map_congr_left
          intro a _
          simp only [Function.comp_apply]
          split <;> rfl

/-- Witness for C9: u2 cannot update or delete u1's ledger entry e0. -/
theorem ledger_owner_only_mutation_c9_witness :
    putExchangeV2 stHalf "u2" "e0" none none none none
      = (.err 403 "Not authorized to update this exchange", stHalf) ∧
    putExchangeV1 stHalf "u2" "e0" (some (some "m")) none none none
      = (.err 403 "You are not authorized to update this exchange", stHalf) ∧
    deleteExchange stHalf "u2" "e0"
      = (.err 403 "Not authorized to delete this exchange", stHalf) := by
  have h := ledger_owner_only_mutation_c9
  exact ⟨h.1 stHalf "u2" "e0" none none none none
      ⟨"e0", "u1", "c2", none, none, none, none, 0⟩ (by decide) (by decide),
    h.2.1 stHalf "u2" "e0" (some (some "m")) none none none
      ⟨"e0", "u1", "c2", none, none, none, none, 0⟩ (by decide) (by decide),
    h.2.2.1 stHalf "u2" "e0"
      ⟨"e0", "u1", "c2", none, none, none, none, 0⟩ (by decide) (by decide)⟩

/-- C4: a credential that carries its own timestamp or expiry is rejected as
expired exactly when its age exceeds the transport's TTL.  (1) A well-formed
QR payload is rejected by parseCardExchangeQRData exactly when it is older
than 30 minutes.  (2) A share-URL token is issued with expires = issue time
plus 24 hours.  (3) POST /exchanges/mutual returns the expired-token error
for a decodable token exactly when now > expires; a fresh token is never
rejected with that error. -/
theorem embedded_ttl_checks_c4 :
    (∀ (now : Int) (d : QRPayloadJson),
      d.ty = "card_exchange" → d.cardId ≠ "" → d.userId ≠ "" → d.token ≠ "" →
      (parseCardExchangeQRData now d = none ↔ now - d.timestamp > 30 * 60 * 1000)) ∧
    (∀ (cardId userId : String) (issuedAt : Int),
      (generateExchangeUrlPayload cardId userId issuedAt).expires
        = issuedAt + 24 * 60 * 60 * 1000) ∧
    (∀ (now : Int) (st : DBState) (callerId : String) (p : URLTokenPayload)
       (myCardId : String) (memo loc : Option String) (lat lng : Option Int)
       (e1 e2 : String), myCardId ≠ "" →
      (now > p.expires →
        postExchangesMutual now st callerId true (some p) myCardId memo loc lat lng e1 e2
          = (.err 400 "Exchange token has expired", st)) ∧
      (¬ now > p.expires →
        (postExchangesMutual now st callerId true (some p) myCardId memo loc lat lng e1 e2).1
          ≠ .err 400 "Exchange token has expired")) := by
  refine ⟨?_, ?_, ?_⟩
  · intro now d h1 h2 h3 h4
    unfold parseCardExchangeQRData
    simp only [h1, bne_self_eq_false, Bool.false_or]
    have h2' : (d.cardId == "") = false := by simp [h2]
    have h3' : (d.userId == "") = false := by simp [h3]
    have h4' : (d.token == "") = false := by simp [h4]
    simp only [h2', h3', h4', Bool.or_self, Bool.or_false, if_false]
    by_cases hc : now - d.timestamp > 30 * 60 * 1000 <;> simp [hc] <;> omega
  · intro cardId userId issuedAt
    rfl
  · intro now st callerId p myCardId memo loc lat lng e1 e2 hmy
    have hmy' : (myCardId == "") = false := by simp [hmy]
    constructor
    · intro hexp
      unfold postExchangesMutual
      simp [hmy', hexp]
    · intro hexp
      unfold postExchangesMutual
      simp only [hmy', Bool.not_true, Bool.false_or, Bool.or_false, if_neg,
        Bool.false_eq_true, not_false_eq_true, hexp, if_false]
      split
      · simp
      · split
        · simp
        · split
          · simp
          · split
            · simp
            · split
              · simp
              · split <;> simp

/-- Witness for C4: a 30-minute-and-older QR payload is rejected, a fresher
one is not; an expired URL token is rejected by the mutual exchange with the
expiry error, a live one never is. -/
theorem embedded_ttl_checks_c4_witness :
    parseCardExchangeQRData 1800002 ⟨"card_exchange", "c", "u", "t", 1⟩ = none ∧
    parseCardExchangeQRData 1800001 ⟨"card_exchange", "c", "u", "t", 1⟩ ≠ none ∧
    postExchangesMutual 101 stBase "u2" true (some ⟨"c1", "u1", 0, 100⟩) "c2"
      none none none none "x1" "x2" = (.err 400 "Exchange token has expired", stBase) ∧
    (postExchangesMutual 100 stBase "u2" true (some ⟨"c1", "u1", 0, 100⟩) "c2"
      none none none none "x1" "x2").1 ≠ .err 400 "Exchange token has expired" := by
  refine ⟨?_, ?_, ?_, ?_⟩
  · exact (embedded_ttl_checks_c4.1 1800002 ⟨"card_exchange", "c", "u", "t", 1⟩
      rfl (by decide) (by decide) (by decide)).mpr (by decide)
  · intro h
    have hgt := (embedded_ttl_checks_c4.1 1800001 ⟨"card_exchange", "c", "u", "t", 1⟩
      rfl (by decide) (by decide) (by decide)).mp h
    exact absurd hgt (by decide)
  · exact (embedded_ttl_checks_c4.2.2 101 stBase "u2" ⟨"c1", "u1", 0, 100⟩ "c2"
      none none none none "x1" "x2" (by decide)).1 (by decide)
  · exact (embedded_ttl_checks_c4.2.2 100 stBase "u2" ⟨"c1", "u1", 0, 100⟩ "c2"
      none none none none "x1" "x2" (by decide)).2 (by decide)

/-- A successful ledger insert leaves the qr_exchange_tokens table unchanged. -/
theorem insertExchange_ok_qrTokens {st st' : DBState} {row : ExchangeRow}
    (h : insertExchange st row = .ok st') : st'.qrTokens = st.qrTokens := by
  unfold insertExchange at h
  repeat' split at h
  any_goals exact Except.noConfusion h
  injection h with h
  subst h
  rfl

/-- A successful qr_exchange_logs insert leaves qr_exchange_tokens unchanged. -/
theorem insertQRLog_ok_qrTokens {st st' : DBState} {row : QRLogRow}
    (h : insertQRLog st row = .ok st') : st'.qrTokens = st.qrTokens := by
  unfold insertQRLog at h
  repeat' split at h
  any_goals exact Except.noConfusion h
  injection h with h
  subst h
  rfl

/-- A conditionally-skipped ledger insert (the dedup guard of the QR handler)
leaves qr_exchange_tokens unchanged when it succeeds. -/
theorem guardedInsertExchange_ok_qrTokens {st st' : DBState} {row : ExchangeRow}
    {cond : Bool} (h : (if cond then insertExchange st row else .ok st) = .ok st') :
    st'.qrTokens = st.qrTokens := by
  split at h
  · exact insertExchange_ok_qrTokens h
  · injection h with h
    subst h
    rfl

/-- C5: the instant-bidirectional QR redeem (newer router) never deletes the
presented token: whatever the request and outcome, the qr_exchange_tokens
table after POST /exchanges/qr is exactly the table before, so a token that
validated for one scanner remains available to further scanners within its
expiry window. -/
theorem qr_redeem_keeps_token_c5 (now : Int) (st : DBState) (callerId : String)
    (qrData : Option QRInputData) (myCardId : String)
    (memo loc : Option String) (lat lng : Option Int) (e1 e2 logId : String) :
    ((postExchangesQRv2 now st callerId qrData myCardId memo loc lat lng
        e1 e2 logId).2).qrTokens = st.qrTokens := by
  unfold postExchangesQRv2
  dsimp only
  repeat' split
  any_goals rfl
  · rename_i x1 stB h2 x0 a h3
    exact guardedInsertExchange_ok_qrTokens h2
  · rename_i x2 stA h1 x1 stB h2 x0 a h3
    exact (guardedInsertExchange_ok_qrTokens h2).trans
      (guardedInsertExchange_ok_qrTokens h1)
  · rename_i x2 stA h1 x1 stB h2 x0 stC h3
    exact (insertQRLog_ok_qrTokens h3).trans
      ((guardedInsertExchange_ok_qrTokens h2).trans
        (guardedInsertExchange_ok_qrTokens h1))

/-- find? finding nothing means no element satisfies the predicate. -/
theorem find?_none_any_false {α : Type} {p : α → Bool} {l : List α}
    (h : l.find? p = none) : l.any p = false := by
  rw [List.find?_eq_none] at h
  rw [Bool.eq_false_iff]
  intro hc
  rcases List.any_eq_true.mp hc with ⟨a, ha, hpa⟩
  exact h a ha hpa

/-- A member satisfying the predicate makes any true. -/
theorem mem_any_true {α : Type} {p : α → Bool} {l : List α} {a : α}
    (ha : a ∈ l) (hp : p a = true) : l.any p = true :=
  List.any_eq_true.mpr ⟨a, ha, hp⟩

/-- C10: the URL-exchange credential is validated purely by decoding and
comparing the embedded expiry with the clock; no stored token record is
consulted.  (1) GET /exchanges/token-info succeeds exactly when the token is
present, decodes, is unexpired, and names an existing card with an existing
owner row — no other table matters.  (2) The token-info result is unchanged
under arbitrary replacement of the exchanges, qr_exchange_tokens,
exchange_requests and qr_exchange_logs tables.  (3) A payload fabricated
from any existing card id and a future expiry (with arbitrary userId and
timestamp fields) drives POST /exchanges/mutual to full success for any
caller owning some card, even though no token was ever issued. -/
theorem url_token_forgeable_c10 :
    (∀ (now : Int) (st : DBState) (tp : Bool) (p : Option URLTokenPayload),
      getTokenInfo now st tp p = .ok 200 ↔
        (tp = true ∧ ∃ q, p = some q ∧ ¬ now > q.expires ∧
          ∃ c, st.cards.find? (fun c => c.id == q.cardId) = some c ∧
            (st.users.find? (fun u => u.id == c.user_id)).isSome)) ∧
    (∀ (now : Int) (tp : Bool) (p : Option URLTokenPayload)
       (users : List UserRow) (cards : List CardRow)
       (E E' : List ExchangeRow) (T T' : List QRTokenRow)
       (R R' : List RequestRow) (L L' : List QRLogRow),
      getTokenInfo now ⟨users, cards, E, T, R, L⟩ tp p
        = getTokenInfo now ⟨users, cards, E', T', R', L'⟩ tp p) ∧
    (∀ (now : Int) (st : DBState) (callerId fakeUserId : String)
       (fakeTs expires : Int) (cid myCardId : String)
       (memo loc : Option String) (lat lng : Option Int) (e1 e2 : String)
       (targetCard myCard : CardRow),
      st.cards.find? (fun c => c.id == cid) = some targetCard →
      st.cards.find? (fun c => c.id == myCardId && c.user_id == callerId) = some myCard →
      (targetCard.user_id == callerId) = false →
      myCardId ≠ "" →
      ¬ now > expires →
      st.exchanges.find? (fun e => e.owner_user_id == callerId &&
        e.collected_card_id == targetCard.id) = none →
      st.exchanges.find? (fun e => e.owner_user_id == targetCard.user_id &&
        e.collected_card_id == myCard.id) = none →
      (st.exchanges.any (fun e => e.id == e1)) = false →
      (st.exchanges.any (fun e => e.id == e2)) = false →
      (e1 == e2) = false →
      (st.users.any (fun u => u.id == callerId)) = true →
      (st.users.any (fun u => u.id == targetCard.user_id)) = true →
      (postExchangesMutual now st callerId true
          (some ⟨cid, fakeUserId, fakeTs, expires⟩) myCardId
          memo loc lat lng e1 e2).1 = .ok 200) := by
  refine ⟨?_, ?_, ?_⟩
  · intro now st tp p
    unfold getTokenInfo
    cases tp with
    | false => simp
    | true =>
      simp only [Bool.not_true, Bool.false_eq_true, if_false]
      cases p with
      | none => simp
      | some q =>
        by_cases hexp : now > q.expires
        · simp [hexp]
        · simp only [hexp, if_false]
          cases hc : st.cards.find? (fun c => c.id == q.cardId) with
          | none => simp [hexp, hc]
          | some card =>
            cases hu : st.users.find? (fun u => u.id == card.user_id) with
            | none =>
              simp only [hexp, hc, hu]
              simp
              intro _ x hx x1 hmem
              rw [hc] at hx
              injection hx with hx
              subst hx
              have hh := List.find?_eq_none.mp hu x1 hmem
              simpa using hh
            | some u =>
              simp only [hexp, hc, hu]
              simp
              exact ⟨by omega, card, hc, u, List.mem_of_find?_eq_some hu,
                by simpa using List.find?_some hu⟩
  · intro now tp p users cards E E' T T' R R' L L'
    rfl
  · intro now st callerId fakeUserId fakeTs expires cid myCardId memo loc lat lng
      e1 e2 targetCard myCard hfind1 hfind2 hself hmyne hexp hex1 hex2 he1 he2
      he12 hu1 hu2
    have hmy' : (myCardId == "") = false := by simp [hmyne]
    have htmem := List.mem_of_find?_eq_some hfind1
    have htpred := List.find?_some hfind1
    have hmmem := List.mem_of_find?_eq_some hfind2
    have hc1 : st.cards.any (fun c => c.id == targetCard.id) = true :=
      mem_any_true htmem (by simp)
    have hc2 : st.cards.any (fun c => c.id == myCard.id) = true :=
      mem_any_true hmmem (by simp)
    have hpair1 : st.exchanges.any (fun e => e.owner_user_id == callerId &&
        e.collected_card_id == targetCard.id) = false := find?_none_any_false hex1
    have hpair2 : st.exchanges.any (fun e => e.owner_user_id == targetCard.user_id &&
        e.collected_card_id == myCard.id) = false := find?_none_any_false hex2
    unfold postExchangesMutual
    simp only [hmy', Bool.not_true, Bool.false_or, Bool.or_false,
      Bool.false_eq_true, if_false, hexp, hfind1, hfind2, hself, hex1, hex2,
      Option.isSome_none, not_false_eq_true]
    have hrow1 : insertExchange st
        { id := e1, owner_user_id := callerId, collected_card_id := targetCard.id,
          memo := some (jsOr memo ("URL交換で " ++ targetCard.card_name ++ " を取得")),
          location_name := loc, latitude := lat, longitude := lng, created_at := now }
        = .ok { st with exchanges := st.exchanges ++
            [{ id := e1, owner_user_id := callerId, collected_card_id := targetCard.id,
               memo := some (jsOr memo ("URL交換で " ++ targetCard.card_name ++ " を取得")),
               location_name := loc, latitude := lat, longitude := lng, created_at := now }] } := by
      unfold insertExchange
      simp only [he1, hpair1, hu1, hc1, Bool.false_eq_true, if_false,
        Bool.not_true, Bool.true_eq_false]
    have hneq : targetCard.user_id ≠ callerId := by simpa using hself
    have hsymm : (callerId == targetCard.user_id) = false :=
      beq_eq_false_iff_ne.mpr (Ne.symm hneq)
    have hrow2 : insertExchange { st with exchanges := st.exchanges ++
          [{ id := e1, owner_user_id := callerId, collected_card_id := targetCard.id,
             memo := some (jsOr memo ("URL交換で " ++ targetCard.card_name ++ " を取得")),
             location_name := loc, latitude := lat, longitude := lng, created_at := now }] }
        { id := e2, owner_user_id := targetCard.user_id, collected_card_id := myCard.id,
          memo := some ("URL交換で " ++ myCard.card_name ++ " を取得"),
          location_name := loc, latitude := lat, longitude := lng, created_at := now }
        = .ok { st with exchanges := st.exchanges ++
            [{ id := e1, owner_user_id := callerId, collected_card_id := targetCard.id,
               memo := some (jsOr memo ("URL交換で " ++ targetCard.card_name ++ " を取得")),
               location_name := loc, latitude := lat, longitude := lng, created_at := now },
             { id := e2, owner_user_id := targetCard.user_id, collected_card_id := myCard.id,
               memo := some ("URL交換で " ++ myCard.card_name ++ " を取得"),
               location_name := loc, latitude := lat, longitude := lng, created_at := now }] } := by
      unfold insertExchange
      simp only [List.any_append, List.any_cons, List.any_nil, he2, hu2, hc2,
        hpair2, Bool.or_false, Bool.false_or, Bool.false_eq_true, if_false]
      have hpaira : (callerId == targetCard.user_id && targetCard.id == myCard.id) = false := by
        simp [hsymm]
      simp only [he12, hpaira, Bool.false_eq_true, if_false, Bool.or_false]
      simp
    simp only [hrow1, hrow2]

/-- Witness for C10: with no token ever issued (stBase has an empty
qr_exchange_tokens table and URL issuance stores nothing), a fabricated
payload naming u1's card c1 passes token-info and drives the mutual exchange
to success for caller u2. -/
theorem url_token_forgeable_c10_witness :
    getTokenInfo 0 stBase true (some ⟨"c1", "nobody", 0, 50⟩) = .ok 200 ∧
    (postExchangesMutual 0 stBase "u2" true (some ⟨"c1", "nobody", 0, 50⟩) "c2"
       none none none none "x1" "x2").1 = .ok 200 := by
  constructor
  · exact (url_token_forgeable_c10.1 0 stBase true (some ⟨"c1", "nobody", 0, 50⟩)).mpr
      ⟨rfl, ⟨"c1", "nobody", 0, 50⟩, rfl, by decide,
        ⟨"c1", "u1", "Alice Card"⟩, by decide, by decide⟩
  · exact url_token_forgeable_c10.2.2 0 stBase "u2" "nobody" 0 50 "c1" "c2"
      none none none none "x1" "x2" ⟨"c1", "u1", "Alice Card"⟩ ⟨"c2", "u2", "Bob Card"⟩
      (by decide) (by decide) (by decide) (by decide) (by decide) (by decide)
      (by decide) (by decide) (by decide) (by decide) (by decide) (by decide)

/-- Counterexample for C3: the accept branch of
POST /exchanges/requests/:id/respond has no self-exchange guard.  On
stSelfRequest (a pending request whose card c1 is owned by the responder u1)
the accept succeeds and writes ledger entries owned by u1 for u1's own cards
c1 and cm, instead of rejecting the self-exchange. -/
theorem self_exchange_respond_unchecked_c3_counterexample :
    (respondToRequest 0 stSelfRequest "u1" "r1" "accept" (some "cm")
       none none none none "x1" "x2").1 = .ok 200 ∧
    stSelfRequest.cards.find? (fun c => c.id == "c1")
      = some ⟨"c1", "u1", "Alice Card"⟩ ∧
    ((respondToRequest 0 stSelfRequest "u1" "r1" "accept" (some "cm")
       none none none none "x1" "x2").2.exchanges.map
         (fun e => (e.owner_user_id, e.collected_card_id)))
      = [("u1", "c1"), ("u1", "cm")] := by
  refine ⟨by decide, by decide, by decide⟩

/-- C3 amended: the single-direction collect, the mutual URL exchange, the QR
exchange and proximity-request creation all reject a self-exchange with a 400
and no state change; the proximity accept branch itself carries no such
guard (see the counterexample), self-exchange being blocked there only at
request-creation time. -/
theorem self_exchange_guards_c3 :
    (∀ (now : Int) (st : DBState) (callerId cid : String)
       (memo loc : Option String) (lat lng : Option Int) (eid : String)
       (tc : CardRow),
      cid ≠ "" →
      st.cards.find? (fun c => c.id == cid) = some tc →
      (tc.user_id == callerId) = true →
      postExchanges now st callerId cid memo loc lat lng eid
        = (.err 400 "You cannot collect your own card", st)) ∧
    (∀ (now : Int) (st : DBState) (callerId : String) (p : URLTokenPayload)
       (myCardId : String) (memo loc : Option String) (lat lng : Option Int)
       (e1 e2 : String) (oc mc : CardRow),
      myCardId ≠ "" →
      ¬ now > p.expires →
      st.cards.find? (fun c => c.id == p.cardId) = some oc →
      st.cards.find? (fun c => c.id == myCardId && c.user_id == callerId) = some mc →
      (oc.user_id == callerId) = true →
      postExchangesMutual now st callerId true (some p) myCardId memo loc lat lng e1 e2
        = (.err 400 "Cannot exchange cards with yourself", st)) ∧
    (∀ (now : Int) (st : DBState) (callerId : String) (payload : QRPayloadJson)
       (myCardId : String) (memo loc : Option String) (lat lng : Option Int)
       (e1 e2 logId : String) (pc : ParsedQR) (qtok : QRTokenRow) (oc mc : CardRow),
      myCardId ≠ "" →
      pc.cardId ≠ "" →
      parseCardExchangeQRDataV2 now payload = some pc →
      st.qrTokens.find? (fun r => r.token == pc.token && r.expires_at > now) = some qtok →
      st.cards.find? (fun c => c.id == pc.cardId) = some oc →
      st.cards.find? (fun c => c.id == myCardId && c.user_id == callerId) = some mc →
      (oc.user_id == callerId) = true →
      postExchangesQRv2 now st callerId (some (.jsonPayload (some payload)))
          myCardId memo loc lat lng e1 e2 logId
        = (.err 400 "Cannot exchange cards with yourself", st)) ∧
    (∀ (now : Int) (st : DBState) (callerId cardId : String)
       (message : Option String) (reqId : String),
      callerId ≠ "" →
      cardId ≠ "" →
      sendExchangeRequest now st callerId callerId cardId message reqId
        = (.err 400 "Cannot send exchange request to yourself", st)) := by
  refine ⟨?_, ?_, ?_, ?_⟩
  · intro now st callerId cid memo loc lat lng eid tc hcid hfind hself
    unfold postExchanges
    simp [hcid, hfind, hself]
  · intro now st callerId p myCardId memo loc lat lng e1 e2 oc mc
      hmy hexp hoc hmc hself
    unfold postExchangesMutual
    simp [hmy, hexp, hoc, hmc, hself]
  · intro now st callerId payload myCardId memo loc lat lng e1 e2 logId pc qtok
      oc mc hmy hpcid hparse htok hoc hmc hself
    unfold postExchangesQRv2
    simp [hmy, hpcid, hparse, htok, hoc, hmc, hself]
  · intro now st callerId cardId message reqId hcaller hcard
    unfold sendExchangeRequest
    simp [hcaller, hcard]

/-- Witness for C3 amended: all four guards fire on concrete self-exchange
attempts by u1 against u1's own card c1. -/
theorem self_exchange_guards_c3_witness :
    postExchanges 0 stBase "u1" "c1" none none none none "x1"
      = (.err 400 "You cannot collect your own card", stBase) ∧
    postExchangesMutual 0 stBase "u1" true (some ⟨"c1", "u1", 0, 50⟩) "c1"
        none none none none "x1" "x2"
      = (.err 400 "Cannot exchange cards with yourself", stBase) ∧
    postExchangesQRv2 1 stQRToken "u1"
        (some (.jsonPayload (some ⟨"card_exchange", "c1", "u1", "t1", 1⟩)))
        "c1" none none none none "x1" "x2" "lg"
      = (.err 400 "Cannot exchange cards with yourself", stQRToken) ∧
    sendExchangeRequest 0 stBase "u1" "u1" "c1" none "r9"
      = (.err 400 "Cannot send exchange request to yourself", stBase) := by
  refine ⟨?_, ?_, ?_, ?_⟩
  · exact self_exchange_guards_c3.1 0 stBase "u1" "c1" none none none none "x1"
      ⟨"c1", "u1", "Alice Card"⟩ (by decide) (by decide) (by decide)
  · exact self_exchange_guards_c3.2.1 0 stBase "u1" ⟨"c1", "u1", 0, 50⟩ "c1"
      none none none none "x1" "x2" ⟨"c1", "u1", "Alice Card"⟩ ⟨"c1", "u1", "Alice Card"⟩
      (by decide) (by decide) (by decide) (by decide) (by decide)
  · exact self_exchange_guards_c3.2.2.1 1 stQRToken "u1"
      ⟨"card_exchange", "c1", "u1", "t1", 1⟩ "c1" none none none none "x1" "x2" "lg"
      ⟨"c1", "u1", "t1", 1⟩ ⟨"t1", "u1", "c1", 0, 100⟩
      ⟨"c1", "u1", "Alice Card"⟩ ⟨"c1", "u1", "Alice Card"⟩
      (by decide) (by decide) (by decide) (by decide) (by decide) (by decide) (by decide)
  · exact self_exchange_guards_c3.2.2.2 0 stBase "u1" "c1" none "r9"
      (by decide) (by decide)

/-- Counterexample for C1: with the half-finished exchange stHalf (u1 already
collected c2; u2 has not collected c1), retrying the URL mutual exchange does
not complete the missing direction: it fails with the 409 conflict and writes
nothing. -/
theorem bidirectional_retry_conflict_c1_counterexample :
    postExchangesMutual 0 stHalf "u2" true (some ⟨"c1", "u1", 0, 100⟩) "c2"
        none none none none "x1" "x2"
      = (.err 409 "Cards have already been exchanged between these users", stHalf) ∧
    (stHalf.exchanges.map (fun e => (e.owner_user_id, e.collected_card_id)))
      = [("u1", "c2")] ∧
    stHalf.exchanges.find? (fun e =>
      e.owner_user_id == "u2" && e.collected_card_id == "c1") = none := by
  refine ⟨by decide, by decide, by decide⟩

/-- C1 amended: only the QR-scan exchange of the newer router skips an
already-present direction and completes just the missing one; the URL mutual
exchange instead returns a 409 conflict whenever either direction already
exists, and the proximity accept branch performs no dedup check, so an
already-present first direction makes it fail with a 500 and change
nothing. -/
theorem bidirectional_dedup_by_transport_c1 :
    (∀ (now : Int) (st : DBState) (callerId : String) (payload : QRPayloadJson)
       (myCardId : String) (memo loc : Option String) (lat lng : Option Int)
       (e1 e2 logId : String) (pc : ParsedQR) (qtok : QRTokenRow)
       (oc mc : CardRow) (ex : ExchangeRow),
      myCardId ≠ "" →
      pc.cardId ≠ "" →
      parseCardExchangeQRDataV2 now payload = some pc →
      st.qrTokens.find? (fun r => r.token == pc.token && r.expires_at > now) = some qtok →
      st.cards.find? (fun c => c.id == pc.cardId) = some oc →
      st.cards.find? (fun c => c.id == myCardId && c.user_id == callerId) = some mc →
      (oc.user_id == callerId) = false →
      st.exchanges.find? (fun e => e.owner_user_id == callerId &&
        e.collected_card_id == oc.id) = some ex →
      st.exchanges.find? (fun e => e.owner_user_id == oc.user_id &&
        e.collected_card_id == mc.id) = none →
      (st.exchanges.any (fun e => e.id == e2)) = false →
      (st.qrLogs.any (fun l => l.id == logId)) = false →
      (st.users.any (fun u => u.id == oc.user_id)) = true →
      (st.users.any (fun u => u.id == callerId)) = true →
      postExchangesQRv2 now st callerId (some (.jsonPayload (some payload)))
          myCardId memo loc lat lng e1 e2 logId
        = (.ok 200, { st with
            exchanges := st.exchanges ++
              [{ id := e2, owner_user_id := oc.user_id, collected_card_id := mc.id,
                 memo := some ("QR交換: " ++ callerId ++ "から"),
                 location_name := jsOrNullS loc, latitude := jsOrNullI lat,
                 longitude := jsOrNullI lng, created_at := now }],
            qrLogs := st.qrLogs ++
              [{ id := logId, qr_owner_user_id := oc.user_id,
                 scanner_user_id := callerId, scanner_card_id := mc.id,
                 qr_card_id := oc.id,
                 memo := some (jsOr memo (mc.card_name ++ " とのQR交換")),
                 location_name := jsOrNullS loc, latitude := jsOrNullI lat,
                 longitude := jsOrNullI lng, notified := false,
                 created_at := now }] })) ∧
    (∀ (now : Int) (st : DBState) (callerId : String) (p : URLTokenPayload)
       (myCardId : String) (memo loc : Option String) (lat lng : Option Int)
       (e1 e2 : String) (oc mc : CardRow),
      myCardId ≠ "" →
      ¬ now > p.expires →
      st.cards.find? (fun c => c.id == p.cardId) = some oc →
      st.cards.find? (fun c => c.id == myCardId && c.user_id == callerId) = some mc →
      (oc.user_id == callerId) = false →
      ((st.exchanges.find? (fun e => e.owner_user_id == callerId &&
          e.collected_card_id == oc.id)).isSome ||
       (st.exchanges.find? (fun e => e.owner_user_id == oc.user_id &&
          e.collected_card_id == mc.id)).isSome) = true →
      postExchangesMutual now st callerId true (some p) myCardId memo loc lat lng e1 e2
        = (.err 409 "Cards have already been exchanged between these users", st)) ∧
    (∀ (now : Int) (st : DBState) (callerId requestId myCid : String)
       (memo loc : Option String) (lat lng : Option Int) (e1 e2 : String)
       (req : RequestRow) (mc oc : CardRow),
      myCid ≠ "" →
      st.requests.find? (fun r => r.id == requestId && r.to_user_id == callerId &&
        r.status == "pending" && r.expires_at > now) = some req →
      st.cards.find? (fun c => c.id == myCid && c.user_id == callerId) = some mc →
      st.cards.find? (fun c => c.id == req.card_id) = some oc →
      (st.exchanges.any (fun e => e.owner_user_id == callerId &&
        e.collected_card_id == oc.id)) = true →
      respondToRequest now st callerId requestId "accept" (some myCid)
          memo loc lat lng e1 e2
        = (.err 500 "Failed to respond to exchange request", st)) := by
  refine ⟨?_, ?_, ?_⟩
  · intro now st callerId payload myCardId memo loc lat lng e1 e2 logId pc qtok
      oc mc ex hmy hpcid hparse htok hoc hmc hself hex1 hex2 he2 hlog huoc hucal
    have hmcmem := List.mem_of_find?_eq_some hmc
    have hocmem := List.mem_of_find?_eq_some hoc
    have hcmc : st.cards.any (fun c => c.id == mc.id) = true :=
      mem_any_true hmcmem (by simp)
    have hcoc : st.cards.any (fun c => c.id == oc.id) = true :=
      mem_any_true hocmem (by simp)
    have hpair2 : st.exchanges.any (fun e => e.owner_user_id == oc.user_id &&
        e.collected_card_id == mc.id) = false := find?_none_any_false hex2
    unfold postExchangesQRv2
    simp [hmy, hpcid, hparse, htok, hoc, hmc, hself, hex1, hex2]
    have hrow2 : insertExchange st
        { id := e2, owner_user_id := oc.user_id, collected_card_id := mc.id,
          memo := some ("QR交換: " ++ callerId ++ "から"),
          location_name := jsOrNullS loc, latitude := jsOrNullI lat,
          longitude := jsOrNullI lng, created_at := now }
        = .ok { st with exchanges := st.exchanges ++
            [{ id := e2, owner_user_id := oc.user_id, collected_card_id := mc.id,
               memo := some ("QR交換: " ++ callerId ++ "から"),
               location_name := jsOrNullS loc, latitude := jsOrNullI lat,
               longitude := jsOrNullI lng, created_at := now }] } := by
      unfold insertExchange
      simp only [he2, hpair2, huoc, hcmc, Bool.false_eq_true, if_false,
        Bool.not_true, Bool.true_eq_false]
    have hlogrow : insertQRLog { st with exchanges := st.exchanges ++
          [{ id := e2, owner_user_id := oc.user_id, collected_card_id := mc.id,
             memo := some ("QR交換: " ++ callerId ++ "から"),
             location_name := jsOrNullS loc, latitude := jsOrNullI lat,
             longitude := jsOrNullI lng, created_at := now }] }
        { id := logId, qr_owner_user_id := oc.user_id, scanner_user_id := callerId,
          scanner_card_id := mc.id, qr_card_id := oc.id,
          memo := some (jsOr memo (mc.card_name ++ " とのQR交換")),
          location_name := jsOrNullS loc, latitude := jsOrNullI lat,
          longitude := jsOrNullI lng, notified := false, created_at := now }
        = .ok { st with
            exchanges := st.exchanges ++
              [{ id := e2, owner_user_id := oc.user_id, collected_card_id := mc.id,
                 memo := some ("QR交換: " ++ callerId ++ "から"),
                 location_name := jsOrNullS loc, latitude := jsOrNullI lat,
                 longitude := jsOrNullI lng, created_at := now }],
            qrLogs := st.qrLogs ++
              [{ id := logId, qr_owner_user_id := oc.user_id,
                 scanner_user_id := callerId, scanner_card_id := mc.id,
                 qr_card_id := oc.id,
                 memo := some (jsOr memo (mc.card_name ++ " とのQR交換")),
                 location_name := jsOrNullS loc, latitude := jsOrNullI lat,
                 longitude := jsOrNullI lng, notified := false,
                 created_at := now }] } := by
      unfold insertQRLog
      simp only [hlog, huoc, hucal, hcmc, hcoc, Bool.false_eq_true, if_false,
        Bool.not_true, Bool.true_eq_false]
    simp only [hrow2, hlogrow]
    try simp
  · intro now st callerId p myCardId memo loc lat lng e1 e2 oc mc
      hmy hexp hoc hmc hself hdup
    unfold postExchangesMutual
    simp [hmy, hexp, hoc, hmc, hself, hdup]
  · intro now st callerId requestId myCid memo loc lat lng e1 e2 req mc oc
      hmy hreq hmc hoc hdup
    unfold respondToRequest
    simp only [optTruthy, hreq, Option.getD_some, hmc, hoc]
    have hins : insertExchange st
        { id := e1, owner_user_id := callerId, collected_card_id := oc.id,
          memo := some (jsOr memo ("近距離交換で " ++ oc.card_name ++ " を取得")),
          location_name := loc, latitude := lat, longitude := lng, created_at := now }
        = .error .uniqueConstraint := by
      unfold insertExchange
      split
      · rfl
      · simp only [hdup, if_true]
    simp only [hins]
    simp [hmy]

/-- Witness for C1 amended: on stQRHalf the QR redeem skips the existing
u2 -> c1 direction and writes only u1 -> c2; on stHalf the mutual exchange
conflicts with a 409; on stDupRequest the proximity accept fails with a 500
and changes nothing. -/
theorem bidirectional_dedup_by_transport_c1_witness :
    (postExchangesQRv2 1 stQRHalf "u2"
        (some (.jsonPayload (some ⟨"card_exchange", "c1", "u1", "t1", 1⟩)))
        "c2" none none none none "x1" "x2" "lg").1 = .ok 200 ∧
    ((postExchangesQRv2 1 stQRHalf "u2"
        (some (.jsonPayload (some ⟨"card_exchange", "c1", "u1", "t1", 1⟩)))
        "c2" none none none none "x1" "x2" "lg").2.exchanges.map
          (fun e => (e.owner_user_id, e.collected_card_id)))
      = [("u2", "c1"), ("u1", "c2")] ∧
    postExchangesMutual 0 stHalf "u2" true (some ⟨"c1", "u1", 0, 100⟩) "c2"
        none none none none "y1" "y2"
      = (.err 409 "Cards have already been exchanged between these users", stHalf) ∧
    respondToRequest 0 stDupRequest "u1" "r1" "accept" (some "c1")
        none none none none "z1" "z2"
      = (.err 500 "Failed to respond to exchange request", stDupRequest) := by
  have h1 := bidirectional_dedup_by_transport_c1.1 1 stQRHalf "u2"
    ⟨"card_exchange", "c1", "u1", "t1", 1⟩ "c2" none none none none "x1" "x2" "lg"
    ⟨"c1", "u1", "t1", 1⟩ ⟨"t1", "u1", "c1", 0, 100⟩
    ⟨"c1", "u1", "Alice Card"⟩ ⟨"c2", "u2", "Bob Card"⟩
    ⟨"e0", "u2", "c1", none, none, none, none, 0⟩
    (by decide) (by decide) (by decide) (by decide) (by decide) (by decide)
    (by decide) (by decide) (by decide) (by decide) (by decide) (by decide)
    (by decide)
  refine ⟨by rw [h1], by rw [h1]; decide, ?_, ?_⟩
  · exact bidirectional_dedup_by_transport_c1.2.1 0 stHalf "u2" ⟨"c1", "u1", 0, 100⟩
      "c2" none none none none "y1" "y2"
      ⟨"c1", "u1", "Alice Card"⟩ ⟨"c2", "u2", "Bob Card"⟩
      (by decide) (by decide) (by decide) (by decide) (by decide) (by decide)
  · exact bidirectional_dedup_by_transport_c1.2.2 0 stDupRequest "u1" "r1" "c1"
      none none none none "z1" "z2"
      ⟨"r1", "u2", "u1", "c2", none, "pending", 0, 100⟩
      ⟨"c1", "u1", "Alice Card"⟩ ⟨"c2", "u2", "Bob Card"⟩
      (by decide) (by decide) (by decide) (by decide) (by decide)

/-- Counterexample for C2: on stDupRequest the ledger direction (u1, c2)
already exists, so the proximity accept's blind insert hits the unique
constraint; the operation reports failure (HTTP 500, success false), not the
claimed dedup-success. -/
theorem unique_violation_not_success_c2_counterexample :
    stDupRequest.exchanges.find? (fun e =>
      e.owner_user_id == "u1" && e.collected_card_id == "c2")
      = some ⟨"e0", "u1", "c2", none, none, none, none, 0⟩ ∧
    (respondToRequest 0 stDupRequest "u1" "r1" "accept" (some "c1")
        none none none none "w1" "w2").1
      = .err 500 "Failed to respond to exchange request" ∧
    HResp.success (respondToRequest 0 stDupRequest "u1" "r1" "accept" (some "c1")
        none none none none "w1" "w2").1 = false ∧
    (respondToRequest 0 stDupRequest "u1" "r1" "accept" (some "c1")
        none none none none "w1" "w2").2 = stDupRequest := by
  refine ⟨by decide, by decide, by decide, by decide⟩

/-- C2 amended: a unique-constraint violation on a ledger insert is surfaced
as a failure, not converted to success: the newer QR handlers' catch blocks
classify it as duplicate_exchange_error / duplicate_token_error on a 500
response, and the proximity accept (which has no dedup pre-check) returns a
generic 500 with the state unchanged.  Dedup-success semantics come only from
the pre-insert existence checks of the mutual and QR handlers. -/
theorem unique_violation_is_failure_c2 :
    (qrExchangeCatchResp .uniqueConstraint
      = .errTyped 500 "Failed to complete QR exchange" "duplicate_exchange_error") ∧
    (HResp.success (qrExchangeCatchResp .uniqueConstraint) = false) ∧
    (qrGenerateCatchResp .uniqueConstraint
      = .errTyped 500 "Failed to generate QR token" "duplicate_token_error") ∧
    (∀ (now : Int) (st : DBState) (callerId requestId myCid : String)
       (memo loc : Option String) (lat lng : Option Int) (e1 e2 : String)
       (req : RequestRow) (mc oc : CardRow),
      myCid ≠ "" →
      st.requests.find? (fun r => r.id == requestId && r.to_user_id == callerId &&
        r.status == "pending" && r.expires_at > now) = some req →
      st.cards.find? (fun c => c.id == myCid && c.user_id == callerId) = some mc →
      st.cards.find? (fun c => c.id == req.card_id) = some oc →
      (st.exchanges.any (fun e => e.owner_user_id == callerId &&
        e.collected_card_id == oc.id)) = true →
      respondToRequest now st callerId requestId "accept" (some myCid)
          memo loc lat lng e1 e2
        = (.err 500 "Failed to respond to exchange request", st)) := by
  refine ⟨rfl, rfl, rfl, ?_⟩
  intro now st callerId requestId myCid memo loc lat lng e1 e2 req mc oc
    hmy hreq hmc hoc hdup
  unfold respondToRequest
  simp only [optTruthy, hreq, Option.getD_some, hmc, hoc]
  have hins : insertExchange st
      { id := e1, owner_user_id := callerId, collected_card_id := oc.id,
        memo := some (jsOr memo ("近距離交換で " ++ oc.card_name ++ " を取得")),
        location_name := loc, latitude := lat, longitude := lng, created_at := now }
      = .error .uniqueConstraint := by
    unfold insertExchange
    split
    · rfl
    · simp only [hdup, if_true]
  simp only [hins]
  simp [hmy]

/-- Witness for C2 amended: the concrete duplicate direction on stDupRequest
drives the respond accept to the 500 failure via the theorem. -/
theorem unique_violation_is_failure_c2_witness :
    respondToRequest 0 stDupRequest "u1" "r1" "accept" (some "c1")
        none none none none "v1" "v2"
      = (.err 500 "Failed to respond to exchange request", stDupRequest) := by
  exact unique_violation_is_failure_c2.2.2.2 0 stDupRequest "u1" "r1" "c1"
    none none none none "v1" "v2"
    ⟨"r1", "u2", "u1", "c2", none, "pending", 0, 100⟩
    ⟨"c1", "u1", "Alice Card"⟩ ⟨"c2", "u2", "Bob Card"⟩
    (by decide) (by decide) (by decide) (by decide) (by decide)

/-- Filtering for p after keeping only elements failing p yields nothing. -/
theorem filter_not_filter_nil {α : Type} (p : α → Bool) (l : List α) :
    (l.filter (fun a => !(p a))).filter p = [] := by
  induction l with
  | nil => rfl
  | cons a l ih =>
    cases hpa : p a <;> simp [List.filter_cons, hpa, ih]

/-- any over a sublist obtained by filter stays false. -/
theorem any_filter_false {α : Type} {p q : α → Bool} {l : List α}
    (h : l.any p = false) : (l.filter q).any p = false := by
  rw [Bool.eq_false_iff] at h ⊢
  intro hc
  apply h
  rcases List.any_eq_true.mp hc with ⟨a, ha, hpa⟩
  exact List.any_eq_true.mpr ⟨a, List.mem_of_mem_filter ha, hpa⟩

/-- Counterexample for C6: POST /cards/:id/generate-qr performs no
invalidations: issuing twice for the same (u1, c1) pair leaves two live
tokens for that pair, so an issue operation does not guarantee at most one
live token per pair. -/
theorem qr_issue_leaves_stale_tokens_c6_counterexample :
    (((generateQRv1 0 ((generateQRv1 0 stBase "u1" "c1" "t1").2) "u1" "c1" "t2").2).qrTokens.map
        (fun t => (t.token, t.user_id, t.card_id)))
      = [("t1", "u1", "c1"), ("t2", "u1", "c1")] ∧
    (((generateQRv1 0 ((generateQRv1 0 stBase "u1" "c1" "t1").2) "u1" "c1" "t2").2).qrTokens.filter
        (fun t => t.user_id == "u1" && t.card_id == "c1" && t.expires_at > 0)).length
      = 2 := by
  refine ⟨by decide, by decide⟩

/-- C6 amended: only POST /exchanges/qr/generate (newer router) deletes the
prior tokens for the (issuer, card) pair before inserting, leaving exactly
the fresh token for that pair; POST /cards/:id/generate-qr inserts without
deleting, so repeated issuance accumulates live tokens (see the
counterexample). -/
theorem qr_generate_v2_single_live_token_c6 :
    ∀ (now : Int) (st : DBState) (callerId cardId token : String) (card : CardRow),
      cardId ≠ "" →
      st.cards.find? (fun c => c.id == cardId && c.user_id == callerId) = some card →
      (st.qrTokens.any (fun r => r.token == token)) = false →
      (st.users.any (fun u => u.id == callerId)) = true →
      (qrGenerateV2 now st callerId cardId token).1 = .ok 200 ∧
      ((qrGenerateV2 now st callerId cardId token).2.qrTokens.filter
          (fun r => r.user_id == callerId && r.card_id == cardId))
        = [{ token := token, user_id := callerId, card_id := cardId,
             created_at := now, expires_at := now + 30 * 60 * 1000 }] := by
  intro now st callerId cardId token card hcid hfind hfresh huser
  have hpred := List.find?_some hfind
  have hmem := List.mem_of_find?_eq_some hfind
  have hcards : st.cards.any (fun c => c.id == cardId) = true :=
    mem_any_true hmem (Bool.and_elim_left hpred)
  have hfresh1 : ((st.qrTokens.filter (fun r =>
      !(r.user_id == callerId && r.card_id == cardId))).any
      (fun r => r.token == token)) = false := any_filter_false hfresh
  have hins : insertQRToken { st with qrTokens := st.qrTokens.filter (fun r =>
        !(r.user_id == callerId && r.card_id == cardId)) }
      { token := token, user_id := callerId, card_id := cardId,
        created_at := now, expires_at := now + 30 * 60 * 1000 }
      = .ok { st with qrTokens := (st.qrTokens.filter (fun r =>
          !(r.user_id == callerId && r.card_id == cardId))) ++
          [{ token := token, user_id := callerId, card_id := cardId,
             created_at := now, expires_at := now + 30 * 60 * 1000 }] } := by
    unfold insertQRToken
    simp only [hfresh1, huser, hcards, Bool.false_eq_true, if_false,
      Bool.not_true, Bool.true_eq_false]
  unfold qrGenerateV2
  have hcid' : (cardId == "") = false := by simp [hcid]
  simp only [hcid', Bool.false_eq_true, if_false, hfind, hins]
  constructor
  · trivial
  · rw [List.filter_append, filter_not_filter_nil, List.nil_append]
    simp

/-- Witness for C6 amended: regenerating via the newer endpoint on stQRToken
(which already holds token t1 for the pair) leaves exactly the fresh token
t9 for (u1, c1). -/
theorem qr_generate_v2_single_live_token_c6_witness :
    (qrGenerateV2 5 stQRToken "u1" "c1" "t9").1 = .ok 200 ∧
    ((qrGenerateV2 5 stQRToken "u1" "c1" "t9").2.qrTokens.filter
        (fun r => r.user_id == "u1" && r.card_id == "c1"))
      = [{ token := "t9", user_id := "u1", card_id := "c1",
           created_at := 5, expires_at := 5 + 30 * 60 * 1000 }] :=
  qr_generate_v2_single_live_token_c6 5 stQRToken "u1" "c1" "t9"
    ⟨"c1", "u1", "Alice Card"⟩ (by decide) (by decide) (by decide) (by decide)

/-- Every view returned by the qr-logs query originates from a log row of the
caller, and carries that row's id and notified flag. -/
theorem qrLogsQueryAux_origin (st : DBState) (uid : String)
    (rows : List QRLogRow) (v : QRLogView)
    (hv : v ∈ qrLogsQueryAux st uid rows) :
    ∃ l ∈ rows, (l.qr_owner_user_id == uid) = true ∧
      v.id = l.id ∧ v.notified = l.notified := by
  rcases List.mem_filterMap.mp hv with ⟨l, hl, hf⟩
  refine ⟨l, hl, ?_⟩
  by_cases hov : (l.qr_owner_user_id == uid) = true
  · refine ⟨hov, ?_⟩
    rw [if_pos hov] at hf
    split at hf
    · injection hf with hf
      subst hf
      exact ⟨rfl, rfl⟩
    · exact Option.noConfusion hf
  · rw [if_neg hov] at hf
    exact Option.noConfusion hf

/-- Counting lemma for the qr-logs query: with intact join references, the
query returns one view per matching row, and its unnotified views count the
matching unnotified rows. -/
theorem qrLogsQueryAux_counts (st : DBState) (uid : String)
    (rows : List QRLogRow)
    (H : ∀ l ∈ rows, (l.qr_owner_user_id == uid) = true →
      ((st.users.find? (fun u => u.id == l.scanner_user_id)).isSome = true ∧
       (st.cards.find? (fun c => c.id == l.scanner_card_id)).isSome = true ∧
       (st.cards.find? (fun c => c.id == l.qr_card_id)).isSome = true)) :
    (qrLogsQueryAux st uid rows).length
      = (rows.filter (fun l => l.qr_owner_user_id == uid)).length ∧
    ((qrLogsQueryAux st uid rows).filter (fun v => !v.notified)).length
      = (rows.filter (fun l => l.qr_owner_user_id == uid && !l.notified)).length := by
  induction rows with
  | nil => exact ⟨rfl, rfl⟩
  | cons l rows ih =>
    have H' : ∀ x ∈ rows, (x.qr_owner_user_id == uid) = true →
        ((st.users.find? (fun u => u.id == x.scanner_user_id)).isSome = true ∧
         (st.cards.find? (fun c => c.id == x.scanner_card_id)).isSome = true ∧
         (st.cards.find? (fun c => c.id == x.qr_card_id)).isSome = true) :=
      fun x hx => H x (List.mem_cons_of_mem _ hx)
    rcases ih H' with ⟨ih1, ih2⟩
    by_cases hov : (l.qr_owner_user_id == uid) = true
    · rcases H l (List.mem_cons_self _ _) hov with ⟨hu, hsc, hqc⟩
      rcases Option.isSome_iff_exists.mp hu with ⟨u, hu'⟩
      rcases Option.isSome_iff_exists.mp hsc with ⟨sc, hsc'⟩
      rcases Option.isSome_iff_exists.mp hqc with ⟨qc, hqc'⟩
      have hove : l.qr_owner_user_id = uid := by simpa using hov
      simp only [qrLogsQueryAux] at ih1 ih2
      cases hn : l.notified with
      | true =>
        simp [qrLogsQueryAux, List.filterMap_cons, hov, hove, hu', hsc', hqc',
          List.filter_cons, hn]
        simp at ih1 ih2
        exact ⟨ih1, ih2⟩
      | false =>
        simp [qrLogsQueryAux, List.filterMap_cons, hov, hove, hu', hsc', hqc',
          List.filter_cons, hn]
        simp at ih1 ih2
        exact ⟨ih1, by omega⟩
    · have hove : ¬ l.qr_owner_user_id = uid := by simpa using hov
      simp only [qrLogsQueryAux] at ih1 ih2
      simp [qrLogsQueryAux, List.filterMap_cons, hove, List.filter_cons]
      simp at ih1 ih2
      exact ⟨ih1, ih2⟩

/-- Membership lemma: a matching row with intact references yields a view
with the same id and notified flag. -/
theorem qrLogsQueryAux_mem (st : DBState) (uid : String)
    (rows : List QRLogRow) (l : QRLogRow) (hl : l ∈ rows)
    (hov : (l.qr_owner_user_id == uid) = true)
    (hu : (st.users.find? (fun u => u.id == l.scanner_user_id)).isSome = true)
    (hsc : (st.cards.find? (fun c => c.id == l.scanner_card_id)).isSome = true)
    (hqc : (st.cards.find? (fun c => c.id == l.qr_card_id)).isSome = true) :
    ∃ v ∈ qrLogsQueryAux st uid rows, v.id = l.id ∧ v.notified = l.notified := by
  rcases Option.isSome_iff_exists.mp hu with ⟨u, hu'⟩
  rcases Option.isSome_iff_exists.mp hsc with ⟨sc, hsc'⟩
  rcases Option.isSome_iff_exists.mp hqc with ⟨qc, hqc'⟩
  refine ⟨⟨l.id, u.name, sc.card_name, qc.card_name, l.notified⟩, ?_, rfl, rfl⟩
  apply List.mem_filterMap.mpr
  refine ⟨l, hl, ?_⟩
  rw [if_pos hov, hu', hsc', hqc']

/-- Membership in a list of strings makes contains true. -/
theorem contains_of_mem_str {a : String} {l : List String} (h : a ∈ l) :
    l.contains a = true := by
  induction l with
  | nil => cases h
  | cons b l ih =>
    rcases List.mem_cons.mp h with h1 | h2
    · subst h1
      simp [List.contains_cons]
    · simp [List.contains_cons]
      exact Or.inr h2

/-- When every log row addressed to the caller is already notified, a fetch
reports zero new entries. -/
theorem getQRLogs_newLogs_zero (st : DBState) (uid : String)
    (Hall : ∀ l ∈ st.qrLogs, (l.qr_owner_user_id == uid) = true →
      l.notified = true) :
    (getQRLogs st uid).1.newLogs = 0 := by
  have hnil : (qrLogsQuery st uid).filter (fun v => !v.notified) = [] := by
    rw [List.filter_eq_nil_iff]
    intro v hv
    rcases qrLogsQueryAux_origin st uid st.qrLogs v hv with ⟨l, hl, hov, hid, hnot⟩
    have hn := Hall l hl hov
    simp [hnot, hn]
  simp only [getQRLogs]
  rw [hnil]
  rfl

/-- C8: GET /exchanges/qr-logs returns one entry per log row addressed to the
caller (with its id and notified flag), reports as newLogs exactly the number
of returned entries whose notified flag is unset, marks every entry it
returned as notified in the database, and therefore an immediate second fetch
reports 0 new entries.  The hypothesis states referential integrity of the
rows' joins, which the schema's foreign keys enforce. -/
theorem qr_log_feed_mark_read_c8 (st : DBState) (uid : String)
    (H : ∀ l ∈ st.qrLogs, (l.qr_owner_user_id == uid) = true →
      ((st.users.find? (fun u => u.id == l.scanner_user_id)).isSome = true ∧
       (st.cards.find? (fun c => c.id == l.scanner_card_id)).isSome = true ∧
       (st.cards.find? (fun c => c.id == l.qr_card_id)).isSome = true)) :
    (getQRLogs st uid).1.total
      = (st.qrLogs.filter (fun l => l.qr_owner_user_id == uid)).length ∧
    (getQRLogs st uid).1.newLogs
      = (st.qrLogs.filter (fun l => l.qr_owner_user_id == uid && !l.notified)).length ∧
    (∀ l ∈ st.qrLogs, (l.qr_owner_user_id == uid) = true →
      ∃ v ∈ (getQRLogs st uid).1.logs, v.id = l.id ∧ v.notified = l.notified) ∧
    (∀ l' ∈ ((getQRLogs st uid).2).qrLogs, (l'.qr_owner_user_id == uid) = true →
      l'.notified = true) ∧
    (getQRLogs ((getQRLogs st uid).2) uid).1.newLogs = 0 := by
  have counts := qrLogsQueryAux_counts st uid st.qrLogs H
  have hmark : ∀ l' ∈ ((getQRLogs st uid).2).qrLogs,
      (l'.qr_owner_user_id == uid) = true → l'.notified = true := by
    intro l' hl' hov'
    simp only [getQRLogs] at hl'
    by_cases hpos : ((qrLogsQuery st uid).filter (fun v => !v.notified)).length > 0
    · rw [if_pos hpos] at hl'
      rcases List.mem_map.mp hl' with ⟨l0, hl0, hfl⟩
      by_cases hc : (((qrLogsQuery st uid).filter (fun v => !v.notified)).map
          (fun v => v.id)).contains l0.id = true
      · rw [if_pos hc] at hfl
        rw [← hfl]
      · rw [if_neg hc] at hfl
        subst hfl
        cases hn : l0.notified with
        | true => rfl
        | false =>
          exfalso
          rcases H l0 hl0 hov' with ⟨hu, hsc, hqc⟩
          rcases qrLogsQueryAux_mem st uid st.qrLogs l0 hl0 hov' hu hsc hqc with
            ⟨v, hvmem, hvid, hvnot⟩
          have hvfilter : v ∈ (qrLogsQuery st uid).filter (fun v => !v.notified) :=
            List.mem_filter.mpr ⟨hvmem, by simp [hvnot, hn]⟩
          have hmemid : l0.id ∈ ((qrLogsQuery st uid).filter
              (fun v => !v.notified)).map (fun v => v.id) :=
            List.mem_map.mpr ⟨v, hvfilter, hvid⟩
          exact hc (contains_of_mem_str hmemid)
    · rw [if_neg hpos] at hl'
      cases hn : l'.notified with
      | true => rfl
      | false =>
        exfalso
        rcases H l' hl' hov' with ⟨hu, hsc, hqc⟩
        rcases qrLogsQueryAux_mem st uid st.qrLogs l' hl' hov' hu hsc hqc with
          ⟨v, hvmem, hvid, hvnot⟩
        have hvfilter : v ∈ (qrLogsQuery st uid).filter (fun v => !v.notified) :=
          List.mem_filter.mpr ⟨hvmem, by simp [hvnot, hn]⟩
        exact hpos (List.length_pos_of_mem hvfilter)
  refine ⟨?_, ?_, ?_, hmark, ?_⟩
  · simpa only [getQRLogs, qrLogsQuery] using counts.1
  · simpa only [getQRLogs, qrLogsQuery] using counts.2
  · intro l hl hov
    rcases H l hl hov with ⟨hu, hsc, hqc⟩
    have hm := qrLogsQueryAux_mem st uid st.qrLogs l hl hov hu hsc hqc
    simpa only [getQRLogs, qrLogsQuery] using hm
  · exact getQRLogs_newLogs_zero _ uid hmark

/-- Witness for C8: on stLogs (one unnotified log for u1) the first fetch
returns 1 entry with 1 new, marks it notified, and a second fetch reports 0
new entries. -/
theorem qr_log_feed_mark_read_c8_witness :
    (getQRLogs stLogs "u1").1.total = 1 ∧
    (getQRLogs stLogs "u1").1.newLogs = 1 ∧
    (∀ l' ∈ ((getQRLogs stLogs "u1").2).qrLogs,
      (l'.qr_owner_user_id == "u1") = true → l'.notified = true) ∧
    (getQRLogs ((getQRLogs stLogs "u1").2) "u1").1.newLogs = 0 := by
  have h := qr_log_feed_mark_read_c8 stLogs "u1" (by decide)
  refine ⟨?_, ?_, h.2.2.2.1, h.2.2.2.2⟩
  · rw [h.1]
    decide
  · rw [h.2.1]
    decide
